import Mathlib

/-!
Verification of garmin-workouts-mcp against its specification.

The development shallowly embeds the deterministic core of the repository:

* `parseDuration`, `parseTarget`, `convertWorkoutStep`, `convertToGarminPayload`
  and the HTTP-response interpretation of `createGarminWorkout`
  (src/garmin-workout-creator.ts);
* `GarminAuth.authenticate`, `GarminAuth.parseJWT`, `GarminAuth.isTokenValid`
  (src/garmin-auth.ts).

JavaScript strings are modelled as `List Char`; JavaScript numbers are
modelled as exact rationals together with an explicit NaN marker (`JsNum`) —
the values computed by the code on the inputs considered here are exact in
double precision, so the rational model is faithful on them.  The regular
expressions used by the source are embedded as explicit leftmost-match
scanners; the character classes of each pattern are pairwise disjoint from
the adjacent literals, so the greedy, backtracking-free scanners below have
exactly the semantics of the JavaScript regex engine on these patterns.
-/

unseal Rat.add Rat.mul Rat.sub Rat.inv Rat.ofScientific

/-- JavaScript whitespace test (`\s`), restricted to the ASCII range used by
this code base. -/
def isWsChar (c : Char) : Bool :=
  c = ' ' ∨ c = '\t' ∨ c = '\n' ∨ c = '\r' ∨ c = '\x0b' ∨ c = '\x0c'

/-- ASCII lower-casing, modelling the effect of the `i` regex flag on the
ASCII literals appearing in the source patterns. -/
def lowerChar (c : Char) : Char :=
  if 'A' ≤ c ∧ c ≤ 'Z' then Char.ofNat (c.toNat + 32) else c

/-- The character class `[\d.]` of the distance pattern. -/
def isDigitOrDot (c : Char) : Bool :=
  c.isDigit || c = '.'

/-- Value of a string of decimal digits (the standard positional reading,
used both by the embedded `parseFloat`/`parseInt` and by the statements). -/
def digitsVal (l : List Char) : Nat :=
  l.foldl (fun a c => a * 10 + (c.toNat - 48)) 0

/-- JavaScript `String.prototype.split` with a single-character separator. -/
def splitOnChar (sep : Char) : List Char → List (List Char)
  | [] => [[]]
  | c :: rest =>
    match splitOnChar sep rest with
    | [] => [[c]]
    | h :: t => if c = sep then [] :: h :: t else (c :: h) :: t

/-- Leftmost-match regex search: try the matcher at every suffix, from the
start of the string, exactly as the JavaScript engine advances its starting
index after a failed attempt. -/
def scanFirst {α : Type} (m : List Char → Option α) : List Char → Option α
  | [] => m []
  | c :: rest =>
    match m (c :: rest) with
    | some r => some r
    | none => scanFirst m rest

/-- A JavaScript number: an exact rational or NaN. -/
inductive JsNum where
  | nan : JsNum
  | num : ℚ → JsNum
deriving DecidableEq

/-- JavaScript multiplication (NaN absorbing; infinities are outside the
fragment exercised by this code). -/
def jsMul : JsNum → JsNum → JsNum
  | .num a, .num b => .num (a * b)
  | _, _ => .nan

/-- JavaScript addition (NaN absorbing). -/
def jsAdd : JsNum → JsNum → JsNum
  | .num a, .num b => .num (a + b)
  | _, _ => .nan

/-- `parseFloat` applied to a match of `[\d.]+`: the longest prefix of the
form `digits [. digits]` is read, and NaN results when it contains no
digit. -/
def jsParseFloatRun (l : List Char) : JsNum :=
  let intPart := l.takeWhile Char.isDigit
  match l.drop intPart.length with
  | '.' :: rest2 =>
    let fracPart := rest2.takeWhile Char.isDigit
    if intPart.isEmpty && fracPart.isEmpty then .nan
    else .num ((digitsVal intPart : ℚ) + (digitsVal fracPart : ℚ) / 10 ^ fracPart.length)
  | _ => if intPart.isEmpty then .nan else .num (digitsVal intPart)

/-- Fully-consuming decimal literal, the numeric core of `Number(...)`. -/
def parseDecimal (l : List Char) : Option ℚ :=
  let ip := l.takeWhile Char.isDigit
  match l.drop ip.length with
  | [] => if ip.isEmpty then none else some (digitsVal ip)
  | '.' :: r =>
    let fp := r.takeWhile Char.isDigit
    if (r.drop fp.length).isEmpty then
      if ip.isEmpty && fp.isEmpty then none
      else some ((digitsVal ip : ℚ) + (digitsVal fp : ℚ) / 10 ^ fp.length)
    else none
  | _ => none

/-- JavaScript `Number(...)` coercion of a string, on the fragment reachable
from this code base: whitespace-trimmed, empty string is 0, an optionally
signed decimal literal is its value, anything else is NaN (exponent, hex and
Infinity forms are not produced by the inputs considered and are mapped to
NaN). -/
def jsNumberL (l : List Char) : JsNum :=
  let t := ((l.dropWhile isWsChar).reverse.dropWhile isWsChar).reverse
  match t with
  | [] => .num 0
  | c :: r =>
    let sb : ℚ × List Char :=
      if c = '-' then (-1, r) else if c = '+' then (1, r) else (1, c :: r)
    match parseDecimal sb.2 with
    | some q => .num (sb.1 * q)
    | none => .nan

/-! ## Duration parsing (`parseDuration`, garmin-workout-creator.ts 318-384) -/

/-- An end-condition descriptor as emitted by the source. -/
structure ConditionType where
  conditionTypeId : Nat
  conditionTypeKey : String
  displayOrder : Nat
  displayable : Bool
deriving DecidableEq

/-- The `lap.button` condition used for "Open" and for the final fallback. -/
def lapButtonCondition : ConditionType :=
  { conditionTypeId := 1, conditionTypeKey := "lap.button", displayOrder := 1, displayable := true }

/-- The `distance` condition. -/
def distanceCondition : ConditionType :=
  { conditionTypeId := 3, conditionTypeKey := "distance", displayOrder := 3, displayable := true }

/-- The `time` condition. -/
def timeCondition : ConditionType :=
  { conditionTypeId := 2, conditionTypeKey := "time", displayOrder := 2, displayable := true }

/-- The alternative `(km|m)` of the distance pattern, case-insensitively:
`km` is tried first, then `m`.  Returns `true` for a `km` match. -/
def matchUnit : List Char → Option Bool
  | [] => none
  | [c1] => if lowerChar c1 = 'm' then some false else none
  | c1 :: c2 :: _ =>
    if lowerChar c1 = 'k' ∧ lowerChar c2 = 'm' then some true
    else if lowerChar c1 = 'm' then some false else none

/-- One anchored attempt of `/([\d.]+)\s*(km|m)/i`: a nonempty greedy run of
`[\d.]`, a greedy run of whitespace, then the unit.  The classes `[\d.]`,
`\s` and the unit letters are pairwise disjoint, so greedy matching without
backtracking is exact here.  Returns the captured run and whether the unit
was `km`. -/
def matchDistAt (l : List Char) : Option (List Char × Bool) :=
  let run := l.takeWhile isDigitOrDot
  if run.isEmpty then none
  else
    match matchUnit ((l.drop run.length).dropWhile isWsChar) with
    | some isKm => some (run, isKm)
    | none => none

/-- Result of `parseDuration`. -/
structure DurationResult where
  conditionType : ConditionType
  conditionValue : JsNum
deriving DecidableEq

/-- Embeds `parseDuration` (garmin-workout-creator.ts 318-384): "Open" maps
to the lap-button sentinel 1000; otherwise the unanchored case-insensitive
distance pattern `/([\d.]+)\s*(km|m)/i` is tried, normalising km to metres;
otherwise any string containing a colon goes through `split(":")` mapped over
`Number`, keeping `seconds = 0` unless there are exactly two or three
components; otherwise the lap-button sentinel again. -/
def parseDuration (duration : String) : DurationResult :=
  if duration = "Open" then
    { conditionType := lapButtonCondition, conditionValue := .num 1000 }
  else
    match scanFirst matchDistAt duration.data with
    | some (run, isKm) =>
      let value := jsParseFloatRun run
      let meters := if isKm then jsMul value (.num 1000) else value
      { conditionType := distanceCondition, conditionValue := meters }
    | none =>
      if duration.data.contains ':' then
        let nums := (splitOnChar ':' duration.data).map jsNumberL
        let seconds : JsNum :=
          if nums.length = 2 then
            jsAdd (jsMul (nums.getD 0 .nan) (.num 60)) (nums.getD 1 .nan)
          else if nums.length = 3 then
            jsAdd (jsAdd (jsMul (nums.getD 0 .nan) (.num 3600))
                (jsMul (nums.getD 1 .nan) (.num 60))) (nums.getD 2 .nan)
          else .num 0
        { conditionType := timeCondition, conditionValue := seconds }
      else
        { conditionType := lapButtonCondition, conditionValue := .num 1000 }

example : parseDuration "Open" = ⟨lapButtonCondition, .num 1000⟩ := by decide
example : parseDuration "10:00" = ⟨timeCondition, .num 600⟩ := by decide
example : parseDuration "1.5 km" = ⟨distanceCondition, .num 1500⟩ := by decide
example : parseDuration "1000 m" = ⟨distanceCondition, .num 1000⟩ := by decide
example : parseDuration "1:02:03" = ⟨timeCondition, .num 3723⟩ := by decide
example : parseDuration "1:2:3:4" = ⟨timeCondition, .num 0⟩ := by decide
example : parseDuration "30 min" = ⟨distanceCondition, .num 30⟩ := by decide
example : parseDuration "10:00 min" = ⟨distanceCondition, .num 0⟩ := by decide
example : parseDuration "blah" = ⟨lapButtonCondition, .num 1000⟩ := by decide

/-! ## Target parsing (`parseTarget`, garmin-workout-creator.ts 256-313) -/

/-- A target-type descriptor as emitted by the source. -/
structure TargetType where
  workoutTargetTypeId : Nat
  workoutTargetTypeKey : String
  displayOrder : Nat
deriving DecidableEq

/-- The `no.target` type, used for empty, "Open" and unmatched targets. -/
def noTargetType : TargetType :=
  { workoutTargetTypeId := 1, workoutTargetTypeKey := "no.target", displayOrder := 1 }

/-- The `heart.rate.zone` type. -/
def heartRateZoneType : TargetType :=
  { workoutTargetTypeId := 4, workoutTargetTypeKey := "heart.rate.zone", displayOrder := 4 }

/-- The `heart.rate.bpm` type. -/
def heartRateBpmType : TargetType :=
  { workoutTargetTypeId := 2, workoutTargetTypeKey := "heart.rate.bpm", displayOrder := 2 }

/-- The `pace.zone` type. -/
def paceZoneType : TargetType :=
  { workoutTargetTypeId := 6, workoutTargetTypeKey := "pace.zone", displayOrder := 6 }

/-- One anchored attempt of `/Zone\s+(\d+)/i`: the literal `Zone`
(case-insensitively), at least one whitespace character, then a nonempty
digit run, which is captured. -/
def matchZoneAt (l : List Char) : Option (List Char) :=
  match l with
  | c1 :: c2 :: c3 :: c4 :: rest =>
    if lowerChar c1 = 'z' ∧ lowerChar c2 = 'o' ∧ lowerChar c3 = 'n' ∧ lowerChar c4 = 'e' then
      if (rest.takeWhile isWsChar).isEmpty then none
      else
        let digits := (rest.dropWhile isWsChar).takeWhile Char.isDigit
        if digits.isEmpty then none else some digits
    else none
  | _ => none

/-- One anchored attempt of `/(\d+)\s*BPM/i`: a nonempty digit run, optional
whitespace, then the literal `BPM` case-insensitively. -/
def matchBpmAt (l : List Char) : Option (List Char) :=
  let digits := l.takeWhile Char.isDigit
  if digits.isEmpty then none
  else
    match (l.drop digits.length).dropWhile isWsChar with
    | b :: p :: m :: _ =>
      if lowerChar b = 'b' ∧ lowerChar p = 'p' ∧ lowerChar m = 'm' then some digits else none
    | _ => none

/-- One anchored attempt of `/(\d+):(\d+)\/km/i`: digits, a colon, digits, a
slash, then `km` case-insensitively. -/
def matchPaceAt (l : List Char) : Option Unit :=
  let d1 := l.takeWhile Char.isDigit
  if d1.isEmpty then none
  else
    match l.drop d1.length with
    | ':' :: rest2 =>
      let d2 := rest2.takeWhile Char.isDigit
      if d2.isEmpty then none
      else
        match rest2.drop d2.length with
        | '/' :: k :: m :: _ =>
          if lowerChar k = 'k' ∧ lowerChar m = 'm' then some () else none
        | _ => none
    | _ => none

/-- Result of `parseTarget`: a target type and an optional zone number
(`none` models the JavaScript `null`, in which case `convertWorkoutStep`
omits the `zoneNumber` field from the step record). -/
structure TargetResult where
  targetType : TargetType
  zoneNumber : Option Nat
deriving DecidableEq

/-- Embeds `parseTarget` (garmin-workout-creator.ts 256-313): empty or
"Open" short-circuit to no-target; otherwise the zone, BPM and pace patterns
are tried in that order, first match wins; only the zone pattern produces a
zone number (`parseInt` of the captured digits); anything else falls back to
no-target. -/
def parseTarget (target : String) : TargetResult :=
  if target = "" ∨ target = "Open" then
    { targetType := noTargetType, zoneNumber := none }
  else
    match scanFirst matchZoneAt target.data with
    | some digits => { targetType := heartRateZoneType, zoneNumber := some (digitsVal digits) }
    | none =>
      match scanFirst matchBpmAt target.data with
      | some _ => { targetType := heartRateBpmType, zoneNumber := none }
      | none =>
        match scanFirst matchPaceAt target.data with
        | some _ => { targetType := paceZoneType, zoneNumber := none }
        | none => { targetType := noTargetType, zoneNumber := none }

example : parseTarget "Zone 3" = ⟨heartRateZoneType, some 3⟩ := by decide
example : parseTarget "zone 12" = ⟨heartRateZoneType, some 12⟩ := by decide
example : parseTarget "138 BPM" = ⟨heartRateBpmType, none⟩ := by decide
example : parseTarget "4:30/km" = ⟨paceZoneType, none⟩ := by decide
example : parseTarget "" = ⟨noTargetType, none⟩ := by decide
example : parseTarget "Open" = ⟨noTargetType, none⟩ := by decide
example : parseTarget "tempo" = ⟨noTargetType, none⟩ := by decide
example : parseTarget "Zone 2 at 140 BPM" = ⟨heartRateZoneType, some 2⟩ := by decide

/-! ## Payload construction (`convertToGarminPayload` / `convertWorkoutStep`,
garmin-workout-creator.ts 164-251) -/

/-- Step intensity, the `intensity` union type of the source. -/
inductive Intensity where
  | warmup | active | rest | cooldown
deriving DecidableEq

/-- Sport, the `sport` union type of the source. -/
inductive Sport where
  | running | cycling | swimming
deriving DecidableEq

/-- A structured workout step, as received from the MCP layer. -/
structure WorkoutStep where
  name : String
  duration : String
  target : String
  intensity : Intensity
  notes : Option String := none
deriving DecidableEq

/-- A structured workout description. -/
structure WorkoutData where
  name : String
  sport : Sport
  steps : List WorkoutStep
deriving DecidableEq

/-- A step-type descriptor of the wire payload. -/
structure StepTypeInfo where
  stepTypeId : Nat
  stepTypeKey : String
  displayOrder : Nat
deriving DecidableEq

/-- A sport-type descriptor of the wire payload. -/
structure SportTypeInfo where
  sportTypeId : Nat
  sportTypeKey : String
  displayOrder : Nat
deriving DecidableEq

/-- The fixed intensity-to-step-type table (garmin-workout-creator.ts
214-223). -/
def stepTypeMapping : Intensity → StepTypeInfo
  | .warmup => { stepTypeId := 1, stepTypeKey := "warmup", displayOrder := 1 }
  | .cooldown => { stepTypeId := 2, stepTypeKey := "cooldown", displayOrder := 2 }
  | .active => { stepTypeId := 3, stepTypeKey := "interval", displayOrder := 3 }
  | .rest => { stepTypeId := 4, stepTypeKey := "recovery", displayOrder := 4 }

/-- The fixed sport table (garmin-workout-creator.ts 166-174). -/
def sportMapping : Sport → SportTypeInfo
  | .running => { sportTypeId := 1, sportTypeKey := "running", displayOrder := 1 }
  | .cycling => { sportTypeId := 2, sportTypeKey := "cycling", displayOrder := 2 }
  | .swimming => { sportTypeId := 5, sportTypeKey := "swimming", displayOrder := 5 }

/-- One emitted workout step (`stepData`, garmin-workout-creator.ts 231-250).
`zoneNumber = none` models the field being absent. -/
structure GarminStep where
  stepId : Nat
  stepOrder : Nat
  stepType : StepTypeInfo
  type : String
  endCondition : ConditionType
  endConditionValue : JsNum
  targetType : TargetType
  zoneNumber : Option Nat
deriving DecidableEq

/-- Embeds `convertWorkoutStep` (garmin-workout-creator.ts 212-251). -/
def convertWorkoutStep (step : WorkoutStep) (stepOrder : Nat) : GarminStep :=
  let stepType := stepTypeMapping step.intensity
  let d := parseDuration step.duration
  let t := parseTarget step.target
  { stepId := stepOrder
    stepOrder := stepOrder
    stepType := stepType
    type := "ExecutableStepDTO"
    endCondition := d.conditionType
    endConditionValue := d.conditionValue
    targetType := t.targetType
    zoneNumber := t.zoneNumber }

/-- The single workout segment of the payload. -/
structure WorkoutSegment where
  segmentOrder : Nat
  sportType : SportTypeInfo
  workoutSteps : List GarminStep
deriving DecidableEq

/-- The wire payload (garmin-workout-creator.ts 181-206).  The constant
scalar fields of the source object are carried verbatim; `none` models
`null`. -/
structure GarminPayload where
  sportType : SportTypeInfo
  subSportType : Option Nat
  workoutName : String
  estimatedDistanceUnitKey : Option String
  workoutSegments : List WorkoutSegment
  avgTrainingSpeed : ℚ
  estimatedDurationInSecs : Nat
  estimatedDistanceInMeters : Nat
  estimateType : Option String
  isWheelchair : Bool
deriving DecidableEq

/-- The indexed `.map` of `workoutData.steps.map((step, index) =>
convertWorkoutStep(step, index + 1))`: the element at 0-based position `i`
of the input is converted with step order `index + i + 1`. -/
def convertSteps (index : Nat) : List WorkoutStep → List GarminStep
  | [] => []
  | s :: rest => convertWorkoutStep s (index + 1) :: convertSteps (index + 1) rest

/-- Embeds `convertToGarminPayload` (garmin-workout-creator.ts 164-207). -/
def convertToGarminPayload (workoutData : WorkoutData) : GarminPayload :=
  let sport := sportMapping workoutData.sport
  { sportType := sport
    subSportType := none
    workoutName := workoutData.name
    estimatedDistanceUnitKey := none
    workoutSegments :=
      [{ segmentOrder := 1
         sportType := sport
         workoutSteps := convertSteps 0 workoutData.steps }]
    avgTrainingSpeed := 3.0727914832080057
    estimatedDurationInSecs := 0
    estimatedDistanceInMeters := 0
    estimateType := none
    isWheelchair := false }

/-! ## HTTP response interpretation (`createGarminWorkout`,
garmin-workout-creator.ts 85-142) -/

/-- The JSON body Garmin returns on success. -/
structure GarminApiResponse where
  workoutId : Nat
  workoutName : String
deriving DecidableEq

deriving instance DecidableEq for Except

/-- An HTTP response as observed by `createGarminWorkout`: status code and
status text, the raw body text (read on the error path), and the outcome of
`response.json()` on the body (`Except.error` carries the message of the
exception a failed JSON parse would throw). -/
structure HttpResponse where
  status : Nat
  statusText : String
  bodyText : String
  json : Except String GarminApiResponse
deriving DecidableEq

/-- The `WorkoutResult` record of the source. -/
structure WorkoutResult where
  success : Bool
  workoutId : Option String
  name : Option String
  url : Option String
  error : Option String
deriving DecidableEq

/-- Embeds the response interpretation of `createGarminWorkout`
(garmin-workout-creator.ts 109-141): on `response.ok` (status 200-299) the
JSON body yields a success record with the stringified workout id and a view
URL templated on it (a JSON parse failure throws and is converted to a
failure record by the surrounding catch); on 401 a fixed auth-expired
failure; on any other status a failure whose message is composed of the
status code and the status text. -/
def handleGarminResponse (r : HttpResponse) : WorkoutResult :=
  if 200 ≤ r.status ∧ r.status < 300 then
    match r.json with
    | .ok result =>
      let workoutId := toString result.workoutId
      { success := true
        workoutId := some workoutId
        name := some result.workoutName
        url := some ("https://connect.garmin.com/modern/workout/" ++ workoutId)
        error := none }
    | .error msg =>
      { success := false, workoutId := none, name := none, url := none, error := some msg }
  else if r.status = 401 then
    { success := false, workoutId := none, name := none, url := none
      error := some "Authentication expired. Please re-authenticate with Garmin Connect." }
  else
    { success := false, workoutId := none, name := none, url := none
      error := some ("API error: " ++ toString r.status ++ " " ++ r.statusText) }

example :
    handleGarminResponse { status := 200, statusText := "OK", bodyText := "",
                           json := .ok { workoutId := 12345, workoutName := "X" } } =
    { success := true, workoutId := some "12345", name := some "X",
      url := some "https://connect.garmin.com/modern/workout/12345", error := none } := by decide
example :
    handleGarminResponse { status := 500, statusText := "Internal Server Error",
                           bodyText := "boom", json := .error "invalid json" } =
    { success := false, workoutId := none, name := none, url := none,
      error := some "API error: 500 Internal Server Error" } := by decide

/-! ## Credential manager (`GarminAuth`, src/garmin-auth.ts) -/

/-- The `exp`/`iat` claims of a decoded JWT payload, in epoch seconds. -/
structure JwtClaims where
  exp : Nat
  iat : Nat
deriving DecidableEq

/-- Boolean test that `pat` is a prefix of `l`. -/
def listStartsWith : List Char → List Char → Bool
  | [], _ => true
  | _ :: _, [] => false
  | p :: ps, c :: cs => p = c && listStartsWith ps cs

/-- JavaScript `String.prototype.replace` with a string pattern: replaces
only the first occurrence of `pat` by `repl`. -/
def replaceFirstChars (pat repl : List Char) : List Char → List Char
  | [] => []
  | c :: rest =>
    if listStartsWith pat (c :: rest) then repl ++ (c :: rest).drop pat.length
    else c :: replaceFirstChars pat repl rest

/-- The pipeline of `parseJWT` up to the runtime decode: strip the first
occurrence of "Bearer ", split on dots, take segment 1 (`none` when the
token has no dot, in which case the source accesses `.length` of
`undefined` and throws into its catch), and pad with `=` to a multiple of
four.  `decodeParse` stands for the platform primitive
`JSON.parse(Buffer.from(padded, "base64").toString())`, returning `none`
when that primitive throws. -/
def jwtDecode (decodeParse : List Char → Option JwtClaims) (token : String) :
    Option JwtClaims :=
  let tokenWithoutBearer := replaceFirstChars "Bearer ".data [] token.data
  match (splitOnChar '.' tokenWithoutBearer).get? 1 with
  | none => none
  | some payload =>
    decodeParse (payload ++ List.replicate ((4 - payload.length % 4) % 4) '=')

/-- Embeds `GarminAuth.parseJWT` (garmin-auth.ts 157-172): the decoded
claims of the bearer token, with every failure of the pipeline caught and
replaced by `{ exp := 0, iat := 0 }`. -/
def parseJWT (decodeParse : List Char → Option JwtClaims) (token : String) : JwtClaims :=
  match jwtDecode decodeParse token with
  | some claims => claims
  | none => { exp := 0, iat := 0 }

/-- The stored `AuthData` record (garmin-auth.ts 6-11); timestamps are epoch
milliseconds. -/
structure AuthData where
  authToken : String
  cookies : String
  expiresAt : Nat
  issuedAt : Nat
deriving DecidableEq

/-- Embeds `GarminAuth.isTokenValid` (garmin-auth.ts 177-185) with the
current time `Date.now()` passed explicitly: the stored credential is valid
iff `now` plus a 30-second buffer is strictly below `expiresAt`. -/
def isTokenValid (now : Nat) (authData : AuthData) : Bool :=
  let bufferMs := 30 * 1000
  now + bufferMs < authData.expiresAt

/-- The effectful environment of one `GarminAuth.authenticate` run.
`launchThrows` is the error thrown by `puppeteer.launch` when the browser
fails to start (`none` when it starts); `sessionThrows` is an error thrown
by any of the page operations inside the `try` block (navigation failure,
the 5-minute login timeout of `waitForFunction`, a failed reload);
`capturedToken` is the final value of the intercepted `authorization`
header (`""` when none was captured, also after the one retry);
`cookieHeader` is the cookie string assembled from `page.cookies()`;
`decodeParse` is the base64/JSON decode primitive used by `parseJWT`. -/
structure AuthEnv where
  launchThrows : Option String
  sessionThrows : Option String
  capturedToken : String
  cookieHeader : String
  decodeParse : List Char → Option JwtClaims

/-- Embeds `GarminAuth.authenticate` (garmin-auth.ts 44-152) as a function
of its effect outcomes.  `Except.error` means the call raises that
exception to its caller.  `puppeteer.launch` is awaited before the
`try`/`catch`/`finally`, so a launch failure propagates; every failure
inside the `try` is caught, logged and leaves `authData = null`; with a
token and cookies present, the credential is built from the parsed JWT
claims, scaled to milliseconds, stored, and returned. -/
def authenticate (env : AuthEnv) : Except String (Option AuthData) :=
  match env.launchThrows with
  | some msg => .error msg
  | none =>
    match env.sessionThrows with
    | some _ => .ok none
    | none =>
      if env.capturedToken ≠ "" ∧ env.cookieHeader ≠ "" then
        let tokenPayload := parseJWT env.decodeParse env.capturedToken
        .ok (some { authToken := env.capturedToken
                    cookies := env.cookieHeader
                    expiresAt := tokenPayload.exp * 1000
                    issuedAt := tokenPayload.iat * 1000 })
      else .ok none

example :
    authenticate { launchThrows := some "no browser", sessionThrows := none,
                   capturedToken := "", cookieHeader := "", decodeParse := fun _ => none } =
    .error "no browser" := rfl
example :
    authenticate { launchThrows := none, sessionThrows := some "timeout",
                   capturedToken := "", cookieHeader := "", decodeParse := fun _ => none } =
    .ok none := rfl
example :
    authenticate { launchThrows := none, sessionThrows := none,
                   capturedToken := "Bearer aa.bb.cc", cookieHeader := "s=1",
                   decodeParse := fun _ => some ⟨100, 50⟩ } =
    .ok (some { authToken := "Bearer aa.bb.cc", cookies := "s=1",
                expiresAt := 100000, issuedAt := 50000 }) := by
  rfl
example : isTokenValid 1000 { authToken := "", cookies := "", expiresAt := 31001, issuedAt := 0 } = true := by decide
example : isTokenValid 1000 { authToken := "", cookies := "", expiresAt := 31000, issuedAt := 0 } = false := by decide

/-! ## Generic helper lemmas -/

/-- Substring test used to express "the detail/url contains ...". -/
def containsSeq (pat : List Char) : List Char → Bool
  | [] => pat.isEmpty
  | c :: rest => listStartsWith pat (c :: rest) || containsSeq pat rest

theorem listStartsWith_iff (pat l : List Char) :
    listStartsWith pat l = true ↔ ∃ post, l = pat ++ post := by
  induction pat generalizing l with
  | nil => simp [listStartsWith]
  | cons p ps ih =>
    cases l with
    | nil => simp [listStartsWith]
    | cons c cs =>
      simp only [listStartsWith, Bool.and_eq_true, decide_eq_true_eq, ih, List.cons_append,
        List.cons.injEq]
      constructor
      · rintro ⟨rfl, post, rfl⟩; exact ⟨post, rfl, rfl⟩
      · rintro ⟨post, rfl, rfl⟩; exact ⟨rfl, post, rfl⟩

theorem containsSeq_iff (pat l : List Char) :
    containsSeq pat l = true ↔ ∃ pre post, l = pre ++ pat ++ post := by
  induction l with
  | nil =>
    simp only [containsSeq, List.isEmpty_iff]
    constructor
    · rintro rfl; exact ⟨[], [], rfl⟩
    · rintro ⟨pre, post, h⟩
      rcases List.append_eq_nil.mp h.symm with ⟨h1, h2⟩
      exact (List.append_eq_nil.mp h1).2
  | cons c cs ih =>
    simp only [containsSeq, Bool.or_eq_true, listStartsWith_iff, ih]
    constructor
    · rintro (⟨post, h⟩ | ⟨pre, post, h⟩)
      · exact ⟨[], post, by simp [h]⟩
      · exact ⟨c :: pre, post, by simp [h]⟩
    · rintro ⟨pre, post, h⟩
      cases pre with
      | nil => exact .inl ⟨post, by simpa using h⟩
      | cons p ps =>
        simp only [List.cons_append, List.cons.injEq] at h
        exact .inr ⟨ps, post, h.2⟩

theorem takeWhile_append_all {p : Char → Bool} {l : List Char} (r : List Char)
    (h : ∀ c ∈ l, p c = true) : (l ++ r).takeWhile p = l ++ r.takeWhile p := by
  induction l with
  | nil => simp
  | cons c cs ih =>
    simp only [List.cons_append, List.takeWhile_cons, h c (by simp), ih
      fun x hx => h x (by simp [hx]), List.cons.injEq]
    simp

theorem dropWhile_append_all {p : Char → Bool} {l : List Char} (r : List Char)
    (h : ∀ c ∈ l, p c = true) : (l ++ r).dropWhile p = r.dropWhile p := by
  induction l with
  | nil => simp
  | cons c cs ih =>
    simp only [List.cons_append, List.dropWhile_cons, h c (by simp)]
    exact ih fun x hx => h x (by simp [hx])

theorem takeWhile_all {p : Char → Bool} {l : List Char} (h : ∀ c ∈ l, p c = true) :
    l.takeWhile p = l := by
  have := takeWhile_append_all (p := p) (l := l) [] h
  simpa using this

/-! ## Claim C4: the 30-second validity buffer -/

/-- C4 (confirmed): a stored credential is judged valid iff the current
time plus the 30-second buffer is strictly below `expiresAt`; in
particular a credential expiring 29 seconds from now is invalid and one
expiring 31 seconds from now is valid. -/
theorem c4_token_validity (auth : AuthData) (now : Nat) :
    (isTokenValid now auth = true ↔ now + 30000 < auth.expiresAt) ∧
    isTokenValid now { auth with expiresAt := now + 29000 } = false ∧
    isTokenValid now { auth with expiresAt := now + 31000 } = true := by
  refine ⟨?_, ?_, ?_⟩ <;> simp [isTokenValid]

/-! ## Claim C8: successful submission -/

/-- C8 (confirmed): a 2xx response whose JSON body carries a numeric
workout id and a name yields a success record with the stringified id, the
returned name, and a view URL containing the id. -/
theorem c8_success_response (r : HttpResponse) (id : Nat) (nm : String)
    (hlo : 200 ≤ r.status) (hhi : r.status < 300)
    (hjson : r.json = .ok { workoutId := id, workoutName := nm }) :
    handleGarminResponse r =
      { success := true, workoutId := some (toString id), name := some nm,
        url := some ("https://connect.garmin.com/modern/workout/" ++ toString id),
        error := none } ∧
    ∃ pre post : List Char,
      ("https://connect.garmin.com/modern/workout/" ++ toString id).data =
        pre ++ (toString id).data ++ post := by
  refine ⟨?_, "https://connect.garmin.com/modern/workout/".data, [], ?_⟩
  · simp [handleGarminResponse, hlo, hhi, hjson]
  · simp [String.data_append]

/-- Witness for C8 at status 200 and body `{workoutId: 12345, workoutName: "X"}`. -/
theorem c8_success_response_witness :
    handleGarminResponse { status := 200, statusText := "OK", bodyText := "",
                           json := .ok { workoutId := 12345, workoutName := "X" } } =
      { success := true, workoutId := some (toString 12345), name := some "X",
        url := some ("https://connect.garmin.com/modern/workout/" ++ toString 12345),
        error := none } ∧
    ∃ pre post : List Char,
      ("https://connect.garmin.com/modern/workout/" ++ toString 12345).data =
        pre ++ (toString 12345).data ++ post :=
  c8_success_response _ 12345 "X" (by decide) (by decide) rfl

/-! ## Claim C1: detail of non-2xx, non-401 failures -/

/-- C1 counterexample: a 500 response with body "boom" produces the detail
string "API error: 500 Internal Server Error", which is built from the
status code and the status text and does not contain the response body. -/
theorem c1_detail_counterexample :
    (handleGarminResponse { status := 500, statusText := "Internal Server Error",
                            bodyText := "boom", json := .error "e" }).error =
      some "API error: 500 Internal Server Error" ∧
    containsSeq "boom".data "API error: 500 Internal Server Error".data = false := by
  constructor
  · decide
  · decide

/-- C1 (corrected): on a response whose status is neither 2xx nor 401, the
result is a failure record whose message is composed of the status code and
the HTTP status text (the response body is only logged, not returned). -/
theorem c1_http_error_detail (r : HttpResponse)
    (hnot2xx : ¬(200 ≤ r.status ∧ r.status < 300)) (hnot401 : r.status ≠ 401) :
    handleGarminResponse r =
      { success := false, workoutId := none, name := none, url := none,
        error := some ("API error: " ++ toString r.status ++ " " ++ r.statusText) } := by
  simp [handleGarminResponse, hnot2xx, hnot401]

/-- Witness for C1 at a 500 response. -/
theorem c1_http_error_detail_witness :
    handleGarminResponse { status := 500, statusText := "Internal Server Error",
                           bodyText := "boom", json := .error "e" } =
      { success := false, workoutId := none, name := none, url := none,
        error := some ("API error: " ++ toString 500 ++ " " ++ "Internal Server Error") } :=
  c1_http_error_detail _ (by decide) (by decide)

/-! ## Claim C2: failures of the acquisition flow -/

/-- C2 counterexample: a failure of the browser launch itself is raised
past the boundary of `authenticate` (in the source, `puppeteer.launch` is
awaited before the `try` block begins). -/
theorem c2_launch_counterexample :
    authenticate { launchThrows := some "Failed to launch the browser process",
                   sessionThrows := none, capturedToken := "", cookieHeader := "",
                   decodeParse := fun _ => none } =
      .error "Failed to launch the browser process" := rfl

/-- C2 (corrected): once the browser has launched, every failure of the
automation flow (navigation error, login timeout, no token captured) is
caught inside `authenticate`, which returns without raising - a null
credential on failure - while a browser launch failure propagates as an
exception to the caller. -/
theorem c2_no_raise_after_launch (env : AuthEnv) (h : env.launchThrows = none) :
    (∃ r : Option AuthData, authenticate env = .ok r) ∧
    (∀ msg, env.sessionThrows = some msg → authenticate env = .ok none) ∧
    (env.capturedToken = "" → authenticate env = .ok none) := by
  unfold authenticate
  rw [h]
  cases hs : env.sessionThrows with
  | some msg => exact ⟨⟨none, rfl⟩, fun _ _ => rfl, fun _ => rfl⟩
  | none =>
    refine ⟨?_, fun msg hmsg => by simp [hs] at hmsg, ?_⟩
    · by_cases hc : env.capturedToken ≠ "" ∧ env.cookieHeader ≠ ""
      · exact ⟨_, by rw [if_pos hc]⟩
      · exact ⟨none, by rw [if_neg hc]⟩
    · intro htok
      rw [if_neg (by simp [htok])]

/-- Witness for C2 on a session that times out after a successful launch. -/
theorem c2_no_raise_after_launch_witness :
    (∃ r : Option AuthData,
      authenticate { launchThrows := none, sessionThrows := some "timeout",
                     capturedToken := "", cookieHeader := "",
                     decodeParse := fun _ => none } = .ok r) ∧
    (∀ msg, (some "timeout" : Option String) = some msg →
      authenticate { launchThrows := none, sessionThrows := some "timeout",
                     capturedToken := "", cookieHeader := "",
                     decodeParse := fun _ => none } = .ok none) ∧
    (("" : String) = "" →
      authenticate { launchThrows := none, sessionThrows := some "timeout",
                     capturedToken := "", cookieHeader := "",
                     decodeParse := fun _ => none } = .ok none) :=
  c2_no_raise_after_launch _ rfl

/-! ## Claim C9: undecodable JWT claims -/

/-- C9 (confirmed): when the claims of the captured bearer token cannot be
decoded (no payload segment, base64 failure or invalid JSON, i.e. the
decode pipeline yields nothing), the credential built by `authenticate` has
`expiresAt` and `issuedAt` both equal to epoch zero, and such a credential
is judged invalid at every current time. -/
theorem c9_undecodable_jwt (dp : List Char → Option JwtClaims) (token cookies : String)
    (now : Nat) (hdec : jwtDecode dp token = none)
    (htok : token ≠ "") (hcook : cookies ≠ "") :
    authenticate { launchThrows := none, sessionThrows := none, capturedToken := token,
                   cookieHeader := cookies, decodeParse := dp } =
      .ok (some { authToken := token, cookies := cookies, expiresAt := 0, issuedAt := 0 }) ∧
    isTokenValid now { authToken := token, cookies := cookies, expiresAt := 0, issuedAt := 0 }
      = false := by
  constructor
  · unfold authenticate
    simp only []
    rw [if_pos ⟨htok, hcook⟩]
    unfold parseJWT
    rw [hdec]
    rfl
  · simp [isTokenValid]

/-- Witness for C9: a token whose payload decodes to no valid claims. -/
theorem c9_undecodable_jwt_witness :
    authenticate { launchThrows := none, sessionThrows := none,
                   capturedToken := "Bearer aa.bb.cc", cookieHeader := "s=1",
                   decodeParse := fun _ => none } =
      .ok (some { authToken := "Bearer aa.bb.cc", cookies := "s=1",
                  expiresAt := 0, issuedAt := 0 }) ∧
    isTokenValid 1700000000000 { authToken := "Bearer aa.bb.cc", cookies := "s=1",
                                 expiresAt := 0, issuedAt := 0 } = false :=
  c9_undecodable_jwt (fun _ => none) "Bearer aa.bb.cc" "s=1" 1700000000000 rfl
    (by decide) (by decide)

/-! ## Claim C3: the fallback behaviour of `parseDuration` -/

/-- C3 counterexample: "1:2:3:4" matches none of the recognized forms
("Open", distance, two- or three-component colon time), yet it does not
yield the lap-button sentinel: it yields a time end-condition with value
0. -/
theorem c3_fallback_counterexample :
    parseDuration "1:2:3:4" = { conditionType := timeCondition, conditionValue := .num 0 } ∧
    parseDuration "Open" =
      { conditionType := lapButtonCondition, conditionValue := .num 1000 } ∧
    timeCondition ≠ lapButtonCondition := by
  refine ⟨by decide, by decide, by decide⟩

/-- C3 (corrected): a duration other than "Open" with no distance match and
no colon yields exactly the same lap-button sentinel result as "Open",
while any such string that does contain a colon yields a time
end-condition, whose value is 0 whenever the number of colon-separated
components is not two or three. -/
theorem c3_fallback (s : String) (hopen : s ≠ "Open")
    (hdist : scanFirst matchDistAt s.data = none) :
    (s.data.contains ':' = false → parseDuration s = parseDuration "Open") ∧
    (s.data.contains ':' = true →
      ∃ v, parseDuration s = { conditionType := timeCondition, conditionValue := v } ∧
        ((splitOnChar ':' s.data).length ≠ 2 → (splitOnChar ':' s.data).length ≠ 3 →
          v = .num 0)) := by
  unfold parseDuration
  rw [if_neg hopen, hdist]
  constructor
  · intro hc
    simp only [hc, Bool.false_eq_true, if_false]
    decide
  · intro hc
    simp only [hc, if_true]
    refine ⟨_, rfl, fun h2 h3 => ?_⟩
    rw [if_neg (by simpa using h2), if_neg (by simpa using h3)]

/-- Witness for C3 at the four-component colon string "1:2:3:4". -/
theorem c3_fallback_witness :
    (("1:2:3:4".data.contains ':') = false →
      parseDuration "1:2:3:4" = parseDuration "Open") ∧
    (("1:2:3:4".data.contains ':') = true →
      ∃ v, parseDuration "1:2:3:4" =
          { conditionType := timeCondition, conditionValue := v } ∧
        ((splitOnChar ':' "1:2:3:4".data).length ≠ 2 →
          (splitOnChar ':' "1:2:3:4".data).length ≠ 3 → v = .num 0)) :=
  c3_fallback "1:2:3:4" (by decide) (by decide)

/-! ## Claim C5: target parsing priority -/

/-- C5 (confirmed): `parseTarget` applies its patterns first-match-wins in
the order zone, BPM, pace, and assigns exactly one target type: a zone
match (`/Zone\s+(\d+)/i`) yields the heart-rate-zone type with the captured
integer as zone number; otherwise a BPM match (`/(\d+)\s*BPM/i`) yields the
heart-rate-bpm type with no zone number; otherwise a pace match
(`/(\d+):(\d+)\/km/i`) yields the pace-zone type with no zone number;
empty, "Open", or anything matching none of the patterns yields the
no-target type with no zone number. -/
theorem c5_target_priority (s : String) :
    (∀ d, scanFirst matchZoneAt s.data = some d →
      parseTarget s = { targetType := heartRateZoneType, zoneNumber := some (digitsVal d) }) ∧
    (scanFirst matchZoneAt s.data = none → ∀ d, scanFirst matchBpmAt s.data = some d →
      parseTarget s = { targetType := heartRateBpmType, zoneNumber := none }) ∧
    (scanFirst matchZoneAt s.data = none → scanFirst matchBpmAt s.data = none →
      scanFirst matchPaceAt s.data = some () →
      parseTarget s = { targetType := paceZoneType, zoneNumber := none }) ∧
    (scanFirst matchZoneAt s.data = none → scanFirst matchBpmAt s.data = none →
      scanFirst matchPaceAt s.data = none →
      parseTarget s = { targetType := noTargetType, zoneNumber := none }) ∧
    (parseTarget "" = { targetType := noTargetType, zoneNumber := none } ∧
      parseTarget "Open" = { targetType := noTargetType, zoneNumber := none }) := by
  by_cases hs : s = "" ∨ s = "Open"
  · have hz : scanFirst matchZoneAt s.data = none := by
      rcases hs with rfl | rfl <;> decide
    refine ⟨fun d hd => ?_, fun _ d hd => ?_, fun _ hb hp => ?_, fun _ _ _ => ?_, by decide⟩
    · rw [hz] at hd; cases hd
    · rcases hs with rfl | rfl <;> first | (rw [show scanFirst matchBpmAt "".data = none from by decide] at hd; cases hd) | (rw [show scanFirst matchBpmAt "Open".data = none from by decide] at hd; cases hd)
    · rcases hs with rfl | rfl <;> first | (rw [show scanFirst matchPaceAt "".data = none from by decide] at hp; cases hp) | (rw [show scanFirst matchPaceAt "Open".data = none from by decide] at hp; cases hp)
    · unfold parseTarget
      rw [if_pos hs]
  · unfold parseTarget
    rw [if_neg hs]
    refine ⟨fun d hd => by rw [hd], fun hz d hd => by rw [hz, hd],
      fun hz hb hp => by rw [hz, hb, hp], fun hz hb hp => by rw [hz, hb, hp], by decide⟩

/-- Witness for C5: the zone pattern fires on "Zone 3" with zone number 3. -/
theorem c5_target_priority_witness :
    parseTarget "Zone 3" = { targetType := heartRateZoneType, zoneNumber := some (digitsVal ['3']) } :=
  (c5_target_priority "Zone 3").1 ['3'] (by decide)

/-! ## Claim C6: step order and step ids -/

theorem convertSteps_length (idx : Nat) (steps : List WorkoutStep) :
    (convertSteps idx steps).length = steps.length := by
  induction steps generalizing idx with
  | nil => rfl
  | cons s rest ih => simp [convertSteps, ih]

theorem convertSteps_getElem? (idx i : Nat) (steps : List WorkoutStep) :
    (convertSteps idx steps)[i]? = steps[i]?.map (fun s => convertWorkoutStep s (idx + i + 1)) := by
  induction steps generalizing idx i with
  | nil => simp [convertSteps]
  | cons s rest ih =>
    cases i with
    | zero => simp [convertSteps]
    | succ n =>
      simp only [convertSteps, List.getElem?_cons_succ, ih (idx + 1) n]
      have : (fun s => convertWorkoutStep s (idx + 1 + n + 1)) =
          (fun s => convertWorkoutStep s (idx + (n + 1) + 1)) := by
        funext s; congr 1; omega
      rw [this]

/-- C6 (confirmed): `convertToGarminPayload` emits a single segment whose
steps are the input steps in input order; the step at 1-based position
`i + 1` is the conversion of the input step at 0-based position `i`, with
`stepOrder = i + 1` and `stepId = stepOrder`. -/
theorem c6_step_order (wd : WorkoutData) (i : Nat) (h : i < wd.steps.length) :
    ∃ seg, (convertToGarminPayload wd).workoutSegments = [seg] ∧
      seg.workoutSteps.length = wd.steps.length ∧
      seg.workoutSteps[i]? = some (convertWorkoutStep wd.steps[i] (i + 1)) ∧
      (convertWorkoutStep wd.steps[i] (i + 1)).stepOrder = i + 1 ∧
      (convertWorkoutStep wd.steps[i] (i + 1)).stepId =
        (convertWorkoutStep wd.steps[i] (i + 1)).stepOrder := by
  refine ⟨_, rfl, convertSteps_length 0 _, ?_, rfl, rfl⟩
  rw [convertSteps_getElem?]
  simp [List.getElem?_eq_getElem h]

/-- Witness for C6 on a two-step workout at position 0. -/
theorem c6_step_order_witness :
    ∃ seg,
      (convertToGarminPayload
        { name := "W", sport := .running,
          steps := [{ name := "Warm", duration := "10:00", target := "Zone 2",
                      intensity := .warmup, notes := none },
                    { name := "Run", duration := "1.0 km", target := "Zone 4",
                      intensity := .active, notes := none }] }).workoutSegments = [seg] ∧
      seg.workoutSteps.length =
        (({ name := "W", sport := .running,
            steps := [{ name := "Warm", duration := "10:00", target := "Zone 2",
                        intensity := .warmup, notes := none },
                      { name := "Run", duration := "1.0 km", target := "Zone 4",
                        intensity := .active, notes := none }] } : WorkoutData)).steps.length ∧
      seg.workoutSteps[0]? =
        some (convertWorkoutStep { name := "Warm", duration := "10:00", target := "Zone 2",
                                   intensity := .warmup, notes := none } (0 + 1)) ∧
      (convertWorkoutStep { name := "Warm", duration := "10:00", target := "Zone 2",
                            intensity := .warmup, notes := none } (0 + 1)).stepOrder = 0 + 1 ∧
      (convertWorkoutStep { name := "Warm", duration := "10:00", target := "Zone 2",
                            intensity := .warmup, notes := none } (0 + 1)).stepId =
        (convertWorkoutStep { name := "Warm", duration := "10:00", target := "Zone 2",
                              intensity := .warmup, notes := none } (0 + 1)).stepOrder :=
  c6_step_order _ 0 (by decide)

/-! ## Digit-string machinery for C7 and C10 -/

/-- The ten decimal digit characters. -/
def digitList : List Char := ['0', '1', '2', '3', '4', '5', '6', '7', '8', '9']

theorem digit_facts {c : Char} (hc : c ∈ digitList) :
    c.isDigit = true ∧ isDigitOrDot c = true ∧ isWsChar c = false ∧
    lowerChar c ≠ 'm' ∧ c ≠ ':' ∧ c ≠ '-' ∧ c ≠ '+' ∧ c ≠ '.' := by
  simp only [digitList, List.mem_cons, List.not_mem_nil, or_false] at hc
  rcases hc with rfl | rfl | rfl | rfl | rfl | rfl | rfl | rfl | rfl | rfl <;> decide

theorem matchUnit_has_m {l : List Char} {b : Bool} (h : matchUnit l = some b) :
    ∃ c ∈ l, lowerChar c = 'm' := by
  match l with
  | [] => cases h
  | [c1] =>
    simp only [matchUnit] at h
    split at h
    · exact ⟨c1, by simp, by assumption⟩
    · cases h
  | c1 :: c2 :: rest =>
    simp only [matchUnit] at h
    split at h
    · exact ⟨c2, by simp, by cases h; exact (by assumption : _ ∧ _).2⟩
    · split at h
      · exact ⟨c1, by simp, by assumption⟩
      · cases h

theorem matchDistAt_none_of_no_m {l : List Char} (h : ∀ c ∈ l, lowerChar c ≠ 'm') :
    matchDistAt l = none := by
  simp only [matchDistAt]
  split
  · rfl
  · cases hmu : matchUnit ((l.drop (l.takeWhile isDigitOrDot).length).dropWhile isWsChar) with
    | none => rfl
    | some b =>
      obtain ⟨c, hcmem, hcm⟩ := matchUnit_has_m hmu
      have hsub : c ∈ l :=
        (List.Sublist.trans (List.dropWhile_sublist _) (List.drop_sublist _ _)).subset hcmem
      exact absurd hcm (h c hsub)

theorem scanFirst_matchDist_none {l : List Char} (h : ∀ c ∈ l, lowerChar c ≠ 'm') :
    scanFirst matchDistAt l = none := by
  induction l with
  | nil => exact matchDistAt_none_of_no_m h
  | cons c rest ih =>
    simp only [scanFirst, matchDistAt_none_of_no_m h]
    exact ih fun x hx => h x (by simp [hx])

theorem matchDistAt_append {num : List Char} (tail : List Char) (hne : num ≠ [])
    (hnum : ∀ c ∈ num, isDigitOrDot c = true)
    (htail : tail.takeWhile isDigitOrDot = []) :
    matchDistAt (num ++ tail) =
      (matchUnit (tail.dropWhile isWsChar)).map (fun b => (num, b)) := by
  have hrun : (num ++ tail).takeWhile isDigitOrDot = num := by
    rw [takeWhile_append_all tail hnum, htail, List.append_nil]
  simp only [matchDistAt, hrun]
  rw [if_neg (by simp [hne]), List.drop_left]
  cases hmu : matchUnit (tail.dropWhile isWsChar) <;> simp [hmu]

theorem scanFirst_matchDist_append {num : List Char} (tail : List Char) (b : Bool)
    (hne : num ≠ []) (hnum : ∀ c ∈ num, isDigitOrDot c = true)
    (htail : tail.takeWhile isDigitOrDot = [])
    (hmu : matchUnit (tail.dropWhile isWsChar) = some b) :
    scanFirst matchDistAt (num ++ tail) = some (num, b) := by
  obtain ⟨c, num', rfl⟩ := List.exists_cons_of_ne_nil hne
  rw [List.cons_append]
  simp only [scanFirst]
  rw [← List.cons_append, matchDistAt_append tail hne hnum htail, hmu]
  rfl

theorem jsParseFloatRun_digits {num : List Char} (hne : num ≠ [])
    (hd : ∀ c ∈ num, c ∈ digitList) :
    jsParseFloatRun num = .num (digitsVal num) := by
  have htw : num.takeWhile Char.isDigit = num :=
    takeWhile_all fun c hc => (digit_facts (hd c hc)).1
  simp only [jsParseFloatRun, htw, List.drop_length]
  rw [if_neg (by simp [hne])]

theorem jsParseFloatRun_decimal {ip fp : List Char} (hip : ip ≠ [])
    (hdi : ∀ c ∈ ip, c ∈ digitList) (hdf : ∀ c ∈ fp, c ∈ digitList) :
    jsParseFloatRun (ip ++ '.' :: fp) =
      .num ((digitsVal ip : ℚ) + (digitsVal fp : ℚ) / 10 ^ fp.length) := by
  have htw : (ip ++ '.' :: fp).takeWhile Char.isDigit = ip := by
    rw [takeWhile_append_all _ fun c hc => (digit_facts (hdi c hc)).1]
    simp [List.takeWhile_cons]
  have hfw : fp.takeWhile Char.isDigit = fp :=
    takeWhile_all fun c hc => (digit_facts (hdf c hc)).1
  simp only [jsParseFloatRun, htw, List.drop_left, hfw]
  rw [if_neg (by simp [hip])]

theorem dropWhile_all_false {p : Char → Bool} {l : List Char}
    (h : ∀ c ∈ l, p c = false) : l.dropWhile p = l := by
  cases l with
  | nil => rfl
  | cons c rest => rw [List.dropWhile_cons, h c (by simp)]; simp

theorem jsNumberL_digits {num : List Char} (hne : num ≠ [])
    (hd : ∀ c ∈ num, c ∈ digitList) :
    jsNumberL num = .num (digitsVal num) := by
  have hws : ∀ c ∈ num, isWsChar c = false := fun c hc => (digit_facts (hd c hc)).2.2.1
  have ht : ((num.dropWhile isWsChar).reverse.dropWhile isWsChar).reverse = num := by
    rw [dropWhile_all_false hws, dropWhile_all_false (by simpa using hws),
      List.reverse_reverse]
  obtain ⟨c, r, rfl⟩ := List.exists_cons_of_ne_nil hne
  simp only [jsNumberL, ht]
  have hfacts := digit_facts (hd c (by simp))
  rw [if_neg hfacts.2.2.2.2.2.1, if_neg hfacts.2.2.2.2.2.2.1]
  have htw : (c :: r).takeWhile Char.isDigit = c :: r :=
    takeWhile_all fun x hx => (digit_facts (hd x hx)).1
  simp only [parseDecimal, htw, List.drop_length]
  rw [if_neg (by simp)]
  simp [one_mul]

theorem splitOnChar_ne_nil (sep : Char) (l : List Char) : splitOnChar sep l ≠ [] := by
  cases l with
  | nil => simp [splitOnChar]
  | cons c rest =>
    simp only [splitOnChar]
    cases splitOnChar sep rest with
    | nil => simp
    | cons h t => by_cases hcs : c = sep <;> simp [hcs]

theorem splitOnChar_no_sep {sep : Char} {l : List Char} (h : ∀ c ∈ l, c ≠ sep) :
    splitOnChar sep l = [l] := by
  induction l with
  | nil => rfl
  | cons c rest ih =>
    simp only [splitOnChar, ih fun x hx => h x (by simp [hx])]
    rw [if_neg (h c (by simp))]

theorem splitOnChar_append {sep : Char} {l₁ : List Char} (l₂ : List Char)
    (h : ∀ c ∈ l₁, c ≠ sep) :
    splitOnChar sep (l₁ ++ sep :: l₂) = l₁ :: splitOnChar sep l₂ := by
  obtain ⟨h2, t2, hsp⟩ : ∃ h2 t2, splitOnChar sep l₂ = h2 :: t2 := by
    cases hs : splitOnChar sep l₂ with
    | nil => exact absurd hs (splitOnChar_ne_nil sep l₂)
    | cons h2 t2 => exact ⟨h2, t2, rfl⟩
  induction l₁ with
  | nil =>
    simp only [List.nil_append, splitOnChar]
    rw [hsp]
    simp
  | cons c rest ih =>
    rw [List.cons_append]
    simp only [splitOnChar]
    rw [ih fun x hx => h x (by simp [hx])]
    simp [h c (by simp)]

theorem mk_ne_open {l : List Char} {c : Char} (hc : c ∈ l) (hno : c ∉ "Open".data) :
    (⟨l⟩ : String) ≠ "Open" := by
  intro h
  have hd : l = "Open".data := congrArg String.data h
  exact hno (hd ▸ hc)

/-! ## Claim C10: the distance pattern is unanchored and wins over time -/

/-- C10 (confirmed): the distance pattern of `parseDuration` is unanchored
and case-insensitive and is applied before the colon-time handling:
whenever `/([\d.]+)\s*(km|m)/i` matches anywhere in the string, the result
is a distance end-condition whose value is read from the leftmost match
(times 1000 for a km unit); in particular "30 min" yields distance 30 and
"10:00 min" yields distance 0, not time or lap-button conditions. -/
theorem c10_distance_pattern :
    (∀ (s : String) (run : List Char) (isKm : Bool),
      scanFirst matchDistAt s.data = some (run, isKm) →
      parseDuration s =
        { conditionType := distanceCondition,
          conditionValue := if isKm then jsMul (jsParseFloatRun run) (.num 1000)
                            else jsParseFloatRun run }) ∧
    parseDuration "30 min" =
      { conditionType := distanceCondition, conditionValue := .num 30 } ∧
    parseDuration "10:00 min" =
      { conditionType := distanceCondition, conditionValue := .num 0 } := by
  refine ⟨fun s run isKm h => ?_, by decide, by decide⟩
  by_cases hs : s = "Open"
  · subst hs
    rw [show scanFirst matchDistAt "Open".data = none from by decide] at h
    cases h
  · unfold parseDuration
    rw [if_neg hs, h]

/-- Witness for C10: the embedded distance pattern fires inside "30 min". -/
theorem c10_distance_pattern_witness :
    parseDuration "30 min" =
      { conditionType := distanceCondition, conditionValue := .num 30 } :=
  (c10_distance_pattern.1 "30 min" ['3', '0'] false (by decide)).trans (by decide)

/-! ## Claim C7: the recognized duration shapes -/

theorem parseDuration_dist_core {num : List Char} (tail : List Char) (b : Bool)
    (hne : num ≠ []) (hnum : ∀ c ∈ num, isDigitOrDot c = true)
    (htail : tail.takeWhile isDigitOrDot = [])
    (hmu : matchUnit (tail.dropWhile isWsChar) = some b)
    (hopen : (⟨num ++ tail⟩ : String) ≠ "Open") :
    parseDuration ⟨num ++ tail⟩ =
      { conditionType := distanceCondition,
        conditionValue := if b then jsMul (jsParseFloatRun num) (.num 1000)
                          else jsParseFloatRun num } := by
  unfold parseDuration
  rw [if_neg hopen,
    show (String.data ⟨num ++ tail⟩) = num ++ tail from rfl,
    scanFirst_matchDist_append tail b hne hnum htail hmu]

theorem parseDuration_time_core {mm ss : List Char} (hmm : mm ≠ []) (hss : ss ≠ [])
    (hdm : ∀ c ∈ mm, c ∈ digitList) (hds : ∀ c ∈ ss, c ∈ digitList) :
    parseDuration ⟨mm ++ ':' :: ss⟩ =
      { conditionType := timeCondition,
        conditionValue := .num ((digitsVal mm : ℚ) * 60 + (digitsVal ss : ℚ)) } := by
  have hnom : ∀ c ∈ mm ++ ':' :: ss, lowerChar c ≠ 'm' := by
    intro c hc
    rcases List.mem_append.mp hc with h1 | h2
    · exact (digit_facts (hdm c h1)).2.2.2.1
    · rcases List.mem_cons.mp h2 with rfl | h3
      · decide
      · exact (digit_facts (hds c h3)).2.2.2.1
  have hsplit : splitOnChar ':' (mm ++ ':' :: ss) = [mm, ss] := by
    rw [splitOnChar_append ss fun c hc => (digit_facts (hdm c hc)).2.2.2.2.1,
      splitOnChar_no_sep fun c hc => (digit_facts (hds c hc)).2.2.2.2.1]
  unfold parseDuration
  rw [if_neg (mk_ne_open (l := mm ++ ':' :: ss) (c := ':') (by simp) (by decide)),
    show (String.data ⟨mm ++ ':' :: ss⟩) = mm ++ ':' :: ss from rfl,
    scanFirst_matchDist_none hnom,
    show (mm ++ ':' :: ss).contains ':' = true from List.elem_eq_true_of_mem (by simp)]
  simp only [if_true, hsplit, List.map_cons, List.map_nil,
    jsNumberL_digits hmm hdm, jsNumberL_digits hss hds]
  norm_num [jsAdd, jsMul]

theorem parseDuration_time3_core {hh mm ss : List Char} (hhh : hh ≠ []) (hmm : mm ≠ [])
    (hss : ss ≠ []) (hdh : ∀ c ∈ hh, c ∈ digitList)
    (hdm : ∀ c ∈ mm, c ∈ digitList) (hds : ∀ c ∈ ss, c ∈ digitList) :
    parseDuration ⟨hh ++ ':' :: (mm ++ ':' :: ss)⟩ =
      { conditionType := timeCondition,
        conditionValue :=
          .num ((digitsVal hh : ℚ) * 3600 + (digitsVal mm : ℚ) * 60 + (digitsVal ss : ℚ)) } := by
  have hnom : ∀ c ∈ hh ++ ':' :: (mm ++ ':' :: ss), lowerChar c ≠ 'm' := by
    intro c hc
    rcases List.mem_append.mp hc with h1 | h2
    · exact (digit_facts (hdh c h1)).2.2.2.1
    · rcases List.mem_cons.mp h2 with rfl | h3
      · decide
      · rcases List.mem_append.mp h3 with h4 | h5
        · exact (digit_facts (hdm c h4)).2.2.2.1
        · rcases List.mem_cons.mp h5 with rfl | h6
          · decide
          · exact (digit_facts (hds c h6)).2.2.2.1
  have hsplit : splitOnChar ':' (hh ++ ':' :: (mm ++ ':' :: ss)) = [hh, mm, ss] := by
    rw [splitOnChar_append _ fun c hc => (digit_facts (hdh c hc)).2.2.2.2.1,
      splitOnChar_append ss fun c hc => (digit_facts (hdm c hc)).2.2.2.2.1,
      splitOnChar_no_sep fun c hc => (digit_facts (hds c hc)).2.2.2.2.1]
  unfold parseDuration
  rw [if_neg (mk_ne_open (l := hh ++ ':' :: (mm ++ ':' :: ss)) (c := ':') (by simp) (by decide)),
    show (String.data ⟨hh ++ ':' :: (mm ++ ':' :: ss)⟩) = hh ++ ':' :: (mm ++ ':' :: ss) from rfl,
    scanFirst_matchDist_none hnom,
    show (hh ++ ':' :: (mm ++ ':' :: ss)).contains ':' = true from
      List.elem_eq_true_of_mem (by simp)]
  simp only [if_true, hsplit, List.map_cons, List.map_nil,
    jsNumberL_digits hhh hdh, jsNumberL_digits hmm hdm, jsNumberL_digits hss hds]
  norm_num [jsAdd, jsMul]

/-- C7 (confirmed): on the recognized well-formed duration shapes,
`parseDuration` returns: for "N km" (N a digit string or a decimal
`I.F`) a distance end-condition worth N × 1000 metres; for "N m" a
distance end-condition worth N unchanged; for "MM:SS" a time
end-condition worth MM×60+SS seconds; for "HH:MM:SS" a time
end-condition worth HH×3600+MM×60+SS seconds. -/
theorem c7_recognized_durations :
    (∀ num : List Char, num ≠ [] → (∀ c ∈ num, c ∈ digitList) →
      parseDuration ⟨num ++ " km".data⟩ =
        { conditionType := distanceCondition,
          conditionValue := .num ((digitsVal num : ℚ) * 1000) }) ∧
    (∀ ip fp : List Char, ip ≠ [] → fp ≠ [] →
      (∀ c ∈ ip, c ∈ digitList) → (∀ c ∈ fp, c ∈ digitList) →
      parseDuration ⟨(ip ++ '.' :: fp) ++ " km".data⟩ =
        { conditionType := distanceCondition,
          conditionValue :=
            .num (((digitsVal ip : ℚ) + (digitsVal fp : ℚ) / 10 ^ fp.length) * 1000) }) ∧
    (∀ num : List Char, num ≠ [] → (∀ c ∈ num, c ∈ digitList) →
      parseDuration ⟨num ++ " m".data⟩ =
        { conditionType := distanceCondition,
          conditionValue := .num (digitsVal num) }) ∧
    (∀ ip fp : List Char, ip ≠ [] → fp ≠ [] →
      (∀ c ∈ ip, c ∈ digitList) → (∀ c ∈ fp, c ∈ digitList) →
      parseDuration ⟨(ip ++ '.' :: fp) ++ " m".data⟩ =
        { conditionType := distanceCondition,
          conditionValue :=
            .num ((digitsVal ip : ℚ) + (digitsVal fp : ℚ) / 10 ^ fp.length) }) ∧
    (∀ mm ss : List Char, mm ≠ [] → ss ≠ [] →
      (∀ c ∈ mm, c ∈ digitList) → (∀ c ∈ ss, c ∈ digitList) →
      parseDuration ⟨mm ++ ':' :: ss⟩ =
        { conditionType := timeCondition,
          conditionValue := .num ((digitsVal mm : ℚ) * 60 + (digitsVal ss : ℚ)) }) ∧
    (∀ hh mm ss : List Char, hh ≠ [] → mm ≠ [] → ss ≠ [] →
      (∀ c ∈ hh, c ∈ digitList) → (∀ c ∈ mm, c ∈ digitList) → (∀ c ∈ ss, c ∈ digitList) →
      parseDuration ⟨hh ++ ':' :: (mm ++ ':' :: ss)⟩ =
        { conditionType := timeCondition,
          conditionValue :=
            .num ((digitsVal hh : ℚ) * 3600 + (digitsVal mm : ℚ) * 60 + (digitsVal ss : ℚ)) }) := by
  have hdotnum : ∀ {ip fp : List Char}, (∀ c ∈ ip, c ∈ digitList) → (∀ c ∈ fp, c ∈ digitList) →
      ∀ c ∈ ip ++ '.' :: fp, isDigitOrDot c = true := by
    intro ip fp hdi hdf c hc
    rcases List.mem_append.mp hc with h1 | h2
    · exact (digit_facts (hdi c h1)).2.1
    · rcases List.mem_cons.mp h2 with rfl | h3
      · decide
      · exact (digit_facts (hdf c h3)).2.1
  refine ⟨?_, ?_, ?_, ?_, ?_, ?_⟩
  · intro num hne hd
    rw [parseDuration_dist_core " km".data true hne
        (fun c hc => (digit_facts (hd c hc)).2.1) (by decide) (by decide)
        (mk_ne_open (c := ' ') (List.mem_append.mpr (.inr (by decide))) (by decide)),
      jsParseFloatRun_digits hne hd]
    simp [jsMul]
  · intro ip fp hip hfp hdi hdf
    rw [parseDuration_dist_core " km".data true (by simp) (hdotnum hdi hdf) (by decide)
        (by decide) (mk_ne_open (c := ' ') (List.mem_append.mpr (.inr (by decide))) (by decide)),
      jsParseFloatRun_decimal hip hdi hdf]
    simp [jsMul]
  · intro num hne hd
    rw [parseDuration_dist_core " m".data false hne
        (fun c hc => (digit_facts (hd c hc)).2.1) (by decide) (by decide)
        (mk_ne_open (c := ' ') (List.mem_append.mpr (.inr (by decide))) (by decide)),
      jsParseFloatRun_digits hne hd]
    simp
  · intro ip fp hip hfp hdi hdf
    rw [parseDuration_dist_core " m".data false (by simp) (hdotnum hdi hdf) (by decide)
        (by decide) (mk_ne_open (c := ' ') (List.mem_append.mpr (.inr (by decide))) (by decide)),
      jsParseFloatRun_decimal hip hdi hdf]
    simp
  · intro mm ss hmm hss hdm hds
    exact parseDuration_time_core hmm hss hdm hds
  · intro hh mm ss hhh hmm hss hdh hdm hds
    exact parseDuration_time3_core hhh hmm hss hdh hdm hds

/-- Witness for C7: "10:30" parses to a 630-second time condition. -/
theorem c7_recognized_durations_witness :
    parseDuration ⟨['1', '0'] ++ ':' :: ['3', '0']⟩ =
      { conditionType := timeCondition,
        conditionValue := .num ((digitsVal ['1', '0'] : ℚ) * 60 + (digitsVal ['3', '0'] : ℚ)) } :=
  c7_recognized_durations.2.2.2.2.1 ['1', '0'] ['3', '0'] (by decide) (by decide)
    (by decide) (by decide)
